import Mathlib

/-!
Verification of the Project Echo backend-resolution and preprocessing core.

The Python sources (src/core/cpu_fallback.py, src/core/preprocessing.py,
src/experiments/audio_demo.py, src/experiments/demo_inference.py,
src/scripts/check_akida.py) are shallowly embedded below.  Effects of the
Python runtime (imports that can fail, filesystem queries, runtime-library
constructors that can throw) are passed in explicitly as environment data;
exceptions are modelled with `Except`; numpy float arrays are modelled as
lists of rationals.
-/

namespace Echo

/-- The outcome of a Python `import` statement: success, an `ImportError`,
or any other exception raised during import (e.g. a binary-incompatibility
`RuntimeError`).  The distinction matters because the availability probes in
cpu_fallback.py catch only `ImportError`. -/
inductive ImportResult
  | ok
  | importError
  | otherError
deriving DecidableEq, Repr

/-- Python exceptions surfaced by the embedded code, tagged by the site that
raises them in the source. -/
inductive PyErr
  /-- cpu_fallback.load_cpu_model: "No CPU inference backend available." -/
  | noBackendAvailable
  /-- cpu_fallback.load_cpu_model: "ONNX Runtime not available." -/
  | onnxUnavailable
  /-- cpu_fallback.load_cpu_model: "TensorFlow Lite not available." -/
  | tfliteUnavailable
  /-- cpu_fallback.load_cpu_model: "Failed to load ONNX/TFLite model" (the
  per-backend load attempt threw). -/
  | modelLoadFailure (backend : String)
  /-- cpu_fallback.CpuModel.predict / load_cpu_model: "Unsupported backend". -/
  | unsupportedBackend (backend : String)
  /-- A non-ImportError exception raised inside an `import` that the
  availability checks do not catch, so it propagates to the caller. -/
  | uncaughtImportCrash
  /-- numpy `np.max` applied to an empty array raises ValueError. -/
  | numpyEmptyMax
  /-- Attribute access on Python `None` (defensive, unreachable states). -/
  | attributeError
deriving DecidableEq, Repr

/-- A numpy array: a shape together with flattened rational contents. -/
structure Tensor where
  shape : List ℕ
  data : List ℚ
deriving Repr

/-- Behaviour of the underlying runtime object wrapped by a `CpuModel`
(an `onnxruntime.InferenceSession` or a TFLite `Interpreter`).  Only the
operations the source actually calls are modelled. -/
structure RtObj where
  /-- `session.get_inputs()[0].name`. -/
  onnxInputName : String
  /-- `session.run(None, {input_name: x})`: the list of outputs. -/
  onnxRun : Tensor → List Tensor
  /-- the TFLite set_tensor / invoke / get_tensor round trip. -/
  tfliteRun : Tensor → Tensor

/-- Calls made on the wrapped runtime object during `predict`; the empty
list means the runtime was never invoked. -/
inductive RtCall
  | onnxGetInputs
  | onnxRun
  | tfliteSetTensor
  | tfliteInvoke
  | tfliteGetTensor
deriving DecidableEq, Repr

/-- cpu_fallback.CpuModel: `backend` string plus the wrapped runtime. -/
structure CpuModel where
  backend : String
  model : RtObj

/-- The empty array produced by np.array with no data: shape (0,). -/
def emptyTensor : Tensor := ⟨[0], []⟩

/-- cpu_fallback.CpuModel.predict (lines 22-37).  Dispatches on the backend
string; any string other than "onnx"/"tflite" raises
`ValueError("Unsupported backend: ...")`.  The second component records the
calls made on the wrapped runtime object. -/
def CpuModel.predict (m : CpuModel) (x : Tensor) : Except PyErr Tensor × List RtCall :=
  if m.backend = "onnx" then
    match m.model.onnxRun x with
    | [] => (.ok emptyTensor, [.onnxGetInputs, .onnxRun])
    | o :: _ => (.ok o, [.onnxGetInputs, .onnxRun])
  else if m.backend = "tflite" then
    (.ok (m.model.tfliteRun x), [.tfliteSetTensor, .tfliteInvoke, .tfliteGetTensor])
  else
    (.error (.unsupportedBackend m.backend), [])

/-- cpu_fallback.check_onnx_available (lines 69-75): catches only
`ImportError`; any other exception raised while importing onnxruntime
propagates to the caller. -/
def check_onnx_available (r : ImportResult) : Except PyErr Bool :=
  match r with
  | .ok => .ok true
  | .importError => .ok false
  | .otherError => .error .uncaughtImportCrash

/-- cpu_fallback.check_tflite_available (lines 78-88): try importing
tflite_runtime.interpreter, on `ImportError` fall back to importing
tensorflow and checking `hasattr(tf, "lite")`; only `ImportError` is
caught at either level. -/
def check_tflite_available (rt tf : ImportResult) (tfHasLite : Bool) : Except PyErr Bool :=
  match rt with
  | .ok => .ok true
  | .importError =>
    match tf with
    | .ok => .ok tfHasLite
    | .importError => .ok false
    | .otherError => .error .uncaughtImportCrash
  | .otherError => .error .uncaughtImportCrash

/-- Environment for cpu_fallback.py: import outcomes and what the runtime
constructors do on each path.  The TFLite constructors fold
`Interpreter(model_path=...)` together with `allocate_tensors()`, since the
source wraps both in the same try/except. -/
structure PyEnv where
  onnxImport : ImportResult
  tfliteRtImport : ImportResult
  tfImport : ImportResult
  tfHasLite : Bool
  /-- `ort.InferenceSession(path)`: the session, or the exception message. -/
  loadOnnx : String → Except String RtObj
  /-- `tflite.Interpreter(model_path=path)` + `allocate_tensors()`. -/
  loadTfliteRt : String → Except String RtObj
  /-- `tf.lite.Interpreter(model_path=path)` + `allocate_tensors()`. -/
  loadTfliteTf : String → Except String RtObj

/-- os.path.splitext: extension of the basename, retained only when some
character strictly before the last dot of the basename is not itself a dot
(so ".bashrc" has no extension). -/
def pyExtOfBase (b : List Char) : List Char :=
  let dotIdxs := (List.range b.length).filter (fun i => b.getD i ' ' = '.')
  match dotIdxs.getLast? with
  | none => []
  | some i =>
    if (List.range i).any (fun j => b.getD j ' ' ≠ '.') then b.drop i else []

/-- The basename of a path: the characters after the last `/`. -/
def pyBasename (path : String) : List Char :=
  ((path.data.reverse.takeWhile (fun c => c ≠ '/'))).reverse

/-- Lowercased extension, i.e. os.path.splitext followed by lower, as
used in load_cpu_model. -/
def pyExtLower (path : String) : String :=
  ⟨(pyExtOfBase (pyBasename path)).map Char.toLower⟩

/-- A record of which runtime-constructor the loader actually attempted. -/
inductive LoadAttempt
  | onnx (path : String)
  | tfliteRt (path : String)
  | tfliteTf (path : String)
deriving DecidableEq, Repr

/-- cpu_fallback.load_cpu_model (lines 91-165).  First determines the
backend (explicit `preferred_backend`, else extension hint, else
auto-detect by availability), then loads it; a throwing load attempt is
re-raised as `RuntimeError("Failed to load ... model")`, with no fallback
to another backend.  The second component lists the load attempts made. -/
def load_cpu_model (env : PyEnv) (path : String) (preferred : Option String) :
    Except PyErr CpuModel × List LoadAttempt :=
  let checkOnnx := check_onnx_available env.onnxImport
  let checkTfl := check_tflite_available env.tfliteRtImport env.tfImport env.tfHasLite
  let backendE : Except PyErr String :=
    match preferred with
    | some b => .ok b
    | none =>
      let ext := pyExtLower path
      if ext = ".onnx" then .ok "onnx"
      else if ext = ".tflite" ∨ ext = ".lite" then .ok "tflite"
      else
        match checkOnnx with
        | .error e => .error e
        | .ok true => .ok "onnx"
        | .ok false =>
          match checkTfl with
          | .error e => .error e
          | .ok true => .ok "tflite"
          | .ok false => .error .noBackendAvailable
  match backendE with
  | .error e => (.error e, [])
  | .ok b =>
    if b = "onnx" then
      match checkOnnx with
      | .error e => (.error e, [])
      | .ok false => (.error .onnxUnavailable, [])
      | .ok true =>
        match env.loadOnnx path with
        | .ok m => (.ok ⟨"onnx", m⟩, [.onnx path])
        | .error _ => (.error (.modelLoadFailure "onnx"), [.onnx path])
    else if b = "tflite" then
      match checkTfl with
      | .error e => (.error e, [])
      | .ok false => (.error .tfliteUnavailable, [])
      | .ok true =>
        -- inner try: tflite_runtime preferred, ImportError falls back to
        -- tensorflow; the outer `except Exception` turns every failure in
        -- the block into "Failed to load TFLite model".
        match env.tfliteRtImport with
        | .ok =>
          match env.loadTfliteRt path with
          | .ok m => (.ok ⟨"tflite", m⟩, [.tfliteRt path])
          | .error _ => (.error (.modelLoadFailure "tflite"), [.tfliteRt path])
        | .importError =>
          match env.tfImport with
          | .ok =>
            match env.loadTfliteTf path with
            | .ok m => (.ok ⟨"tflite", m⟩, [.tfliteTf path])
            | .error _ => (.error (.modelLoadFailure "tflite"), [.tfliteTf path])
          | _ => (.error (.modelLoadFailure "tflite"), [])
        | .otherError => (.error (.modelLoadFailure "tflite"), [])
    else
      (.error (.unsupportedBackend b), [])

/-! ## Preprocessing (src/core/preprocessing.py) -/

/-- Python `int(x)` on a float: truncation toward zero. -/
def pyInt (q : ℚ) : ℤ :=
  if 0 ≤ q then ⌊q⌋ else ⌈q⌉

/-- Python list/array slicing `xs[:k]` for an arbitrary integer `k`:
nonnegative `k` keeps the first `k` elements, negative `k` drops the last
`|k|` elements (empty when `|k| ≥ len(xs)`). -/
def pySliceTo (xs : List ℚ) (k : ℤ) : List ℚ :=
  if 0 ≤ k then xs.take k.toNat else xs.take (xs.length - (-k).toNat)

/-- preprocessing.preprocess_audio, duration step (lines 114-119, and the
identical scipy-branch copy at lines 155-161):
`target_samples = int(duration * sample_rate)`; longer signals are sliced
to `audio[:target_samples]`, shorter ones zero-padded at the end. -/
def adjustDuration (xs : List ℚ) (dur : Option ℚ) (sampleRate : ℕ) : List ℚ :=
  match dur with
  | none => xs
  | some d =>
    let t : ℤ := pyInt (d * (sampleRate : ℚ))
    if (xs.length : ℤ) > t then pySliceTo xs t
    else if (xs.length : ℤ) < t then xs ++ List.replicate (t.toNat - xs.length) 0
    else xs

/-- Maximum absolute sample value, np.max of np.abs, as a fold (0 would
only be returned for the empty list, on which numpy instead raises). -/
def maxAbs (xs : List ℚ) : ℚ :=
  xs.foldr (fun x m => max |x| m) 0

/-- preprocessing.preprocess_audio, normalization step (lines 121-125 and
164-167): scale by the reciprocal of the max absolute sample; guarded so a
zero maximum leaves the signal untouched. -/
def normalizeAudio (xs : List ℚ) : List ℚ :=
  let m := maxAbs xs
  if 0 < m then xs.map (fun x => x / m) else xs

/-- preprocess_audio after decoding: duration adjustment, then optional
normalization (where `np.max` on an empty adjusted signal raises
ValueError), then the batch dimension (giving shape `(1, samples)`, kept
implicit here: the list is the second dimension). -/
def preprocessAudioCore (xs : List ℚ) (dur : Option ℚ) (sampleRate : ℕ)
    (normalize : Bool) : Except PyErr (List ℚ) :=
  let a := adjustDuration xs dur sampleRate
  if normalize then
    if a.isEmpty then .error .numpyEmptyMax
    else .ok (normalizeAudio a)
  else .ok a

/-- The spec's stated length contract for preprocess_audio:
`round(duration * sample_rate)` samples (for comparison with the code's
`int(...)` truncation). -/
def specTargetSamples (d : ℚ) (sampleRate : ℕ) : ℤ :=
  round (d * (sampleRate : ℚ))

/-- preprocessing.preprocess_image, normalization step (lines 74-76): the
decoded uint8 pixel array cast to float and divided by 255.0. -/
def normalizeImagePixels (ps : List ℕ) : List ℚ :=
  ps.map (fun p : ℕ => (p : ℚ) / 255)

/-- A decoded PIL image: PIL sizes are `(width, height)` while
`np.array(img)` yields a `(height, width[, channels])` array. -/
structure PILImage where
  width : ℕ
  height : ℕ
  /-- 3 for mode "RGB", 1 for mode "L". -/
  channels : ℕ
deriving DecidableEq, Repr

/-- Resizing via PIL.Image.resize: the `size` argument is documented by
PIL as a `(width, height)` pair; channels are unchanged. -/
def PILImage.resize (img : PILImage) (size : ℕ × ℕ) : PILImage :=
  { width := size.1, height := size.2, channels := img.channels }

/-- Shape of `np.array(img)` for a PIL image: `(height, width)` for mode
"L", `(height, width, channels)` otherwise. -/
def npArrayShape (img : PILImage) : List ℕ :=
  if img.channels = 1 then [img.height, img.width]
  else [img.height, img.width, img.channels]

/-- preprocessing.preprocess_image (lines 32-85), PIL branch, at the shape
level: convert to RGB or L, call `img.resize(target_shape, LANCZOS)` with
the caller's `(height, width)` tuple passed through verbatim, take
`np.array`, then add the batch dimension (lines 78-84: grayscale arrays get
a channel dimension and then a batch dimension; RGB arrays get only the
batch dimension).  Division by 255 does not change the shape. -/
def preprocess_image_shape (src : PILImage) (targetShape : ℕ × ℕ)
    (grayscale : Bool) : List ℕ :=
  let converted : PILImage :=
    if grayscale then { src with channels := 1 } else { src with channels := 3 }
  let resized := converted.resize targetShape
  let a := npArrayShape resized
  if a.length = 2 then 1 :: 1 :: a else 1 :: a

/-! ## Platform probe (audio_demo.is_linux_arm, demo_inference.is_linux_arm,
check_akida.is_linux_arm — the three copies are textually identical) -/

/-- Leading-run test: `hasPrefixL s p = true` iff `p` is a leading run of
`s`. -/
def hasPrefixL : List Char → List Char → Bool
  | _, [] => true
  | [], _ :: _ => false
  | c :: cs, p :: ps => c = p && hasPrefixL cs ps

/-- Python `pat in s` for strings: substring containment, by scanning. -/
def containsL (s pat : List Char) : Bool :=
  hasPrefixL s pat ||
    match s with
    | [] => false
    | _ :: cs => containsL cs pat

/-- Python `pat in s` on `String`s. -/
def strContains (s pat : String) : Bool :=
  containsL s.data pat.data

/-- Python `s.endswith(pat)`: `pat` is a trailing run of `s`. -/
def strEndsWith (s pat : String) : Bool :=
  hasPrefixL s.data.reverse pat.data.reverse

/-- Python `s.lower()` (ASCII case folding suffices here). -/
def strLower (s : String) : String :=
  ⟨s.data.map Char.toLower⟩

/-- Declarative substring relation used to state the platform-probe spec:
`pat` occurs contiguously inside `l`. -/
def SubstrSpec (pat l : List Char) : Prop :=
  ∃ pre suf, l = pre ++ pat ++ suf

/-- is_linux_arm (audio_demo.py lines 26-30, demo_inference.py lines 27-31,
check_akida.py lines 28-31): Linux system name, and an "arm" or "aarch64"
marker in the lowercased machine string. -/
def is_linux_arm (system machine : String) : Bool :=
  decide (system = "Linux") &&
    (strContains (strLower machine) "arm" || strContains (strLower machine) "aarch64")

/-! ## Demo backend resolution (src/experiments/audio_demo.py) -/

/-- audio_demo.attempt_import_akida (lines 33-39): returns whether
`from akida import Model` succeeded; every exception (not just
ImportError) is swallowed and reported as `(False, None)`. -/
def attempt_import_akida (r : ImportResult) : Bool :=
  match r with
  | .ok => true
  | .importError => false
  | .otherError => false

/-- Filesystem facts consulted by the demo resolution. -/
structure DemoFS where
  pathExists : String → Bool
  listdir : String → List String

/-- audio_demo.find_cpu_model search path list (lines 66-71). -/
def searchPaths : List String :=
  ["./build", "./runtime/models", "../build", "../runtime/models"]

/-- The inner loops of find_cpu_model over one directory (lines 78-81):
extensions are tried in the order `.onnx` then `.tflite`, and within an
extension the first matching directory entry wins. -/
def findInDir (fs : DemoFS) (base : String) : Option String :=
  match (fs.listdir base).find? (fun f => strEndsWith f ".onnx") with
  | some f => some (base ++ "/" ++ f)
  | none =>
    match (fs.listdir base).find? (fun f => strEndsWith f ".tflite") with
    | some f => some (base ++ "/" ++ f)
    | none => none

/-- audio_demo.find_cpu_model (lines 63-83): scan the fixed directory list
in order, skipping directories that do not exist, and return the first hit
produced by `findInDir` — so the directory loop is outermost and the
extension preference applies only within a single directory. -/
def find_cpu_model (fs : DemoFS) : Option String :=
  (searchPaths.filter fs.pathExists).findSome? (findInDir fs)

/-- audio_demo.main lines 158-162: backend inferred from the extension of a
path returned by find_cpu_model. -/
def backendFromFound (p : String) : Option String :=
  if strEndsWith p ".onnx" then some "onnx"
  else if strEndsWith p ".tflite" then some "tflite"
  else none

/-- The backend the spec's §4.5 step 3 says should be selected: probe CPU
runtimes in preference order onnx-then-tflite and take the first whose
availability probe is true and for which a model file with the matching
extension is discoverable somewhere in the well-known directories.
Modelled from the spec wording, for comparison with the code. -/
def specSelectCpu (onnxAvail tfliteAvail : Bool) (fs : DemoFS) : Option String :=
  let discoverable := fun (ext : String) =>
    (searchPaths.filter fs.pathExists).any
      (fun d => (fs.listdir d).any (fun f => strEndsWith f ext))
  if onnxAvail && discoverable ".onnx" then some "onnx"
  else if tfliteAvail && discoverable ".tflite" then some "tflite"
  else none

/-- Model object held by the demo after loading. -/
inductive LoadedModel
  | akida
  | cpu (m : CpuModel)

/-- The `model_path` / `backend` / `model` triple the demo holds after the
resolution section of `main` (lines 129-189). -/
structure Resolution where
  modelPath : Option String
  backend : Option String
  model : Option LoadedModel

/-- Environment for audio_demo.main: platform probe result, akida import
outcome, filesystem, akida model constructor behaviour, the cpu_fallback
environment, the akida predict behaviour and the numpy random stream
backing the placeholder output. -/
structure DemoEnv where
  isLinuxArm : Bool
  akidaImport : ImportResult
  fs : DemoFS
  /-- `AkidaModel(path)`: success or the exception message. -/
  loadAkida : String → Except String Unit
  akidaPredict : Tensor → Tensor
  py : PyEnv
  /-- values drawn by `np.random.rand`. -/
  rand : ℕ → ℚ

/-- audio_demo akida model path candidates (lines 144-148). -/
def akidaPaths : List String :=
  ["./build/demo_model.ez", "./runtime/models/demo_model.ez", "../build/demo_model.ez"]

/-- audio_demo.main, resolution section (lines 129-189): platform/akida
detection, akida path search (only when the caller gave no `--model`),
CPU-model discovery with extension sniffing (only when no path is known),
the dummy terminal, and the two guarded load attempts whose failures are
caught and demote the backend to "cpu" (akida) or "dummy" (cpu loads).
A caller-supplied `--model` path is used verbatim and never extension
sniffed, so its backend stays `None`. -/
def resolveDemo (env : DemoEnv) (argsModel : Option String) : Resolution :=
  let hasAkida := env.isLinuxArm && attempt_import_akida env.akidaImport
  let step1 : Option String × Option String :=
    match argsModel with
    | some p => (some p, none)
    | none =>
      if hasAkida then
        match akidaPaths.find? env.fs.pathExists with
        | some p => (some p, some "akida")
        | none => (none, none)
      else (none, none)
  let step2 : Option String × Option String :=
    match step1.1 with
    | some p => (some p, step1.2)
    | none =>
      match find_cpu_model env.fs with
      | some p => (some p, backendFromFound p)
      | none => (none, step1.2)
  let backend0 : Option String :=
    match step2.1 with
    | none => some "dummy"
    | some _ => step2.2
  let afterAkida : Option String × Option LoadedModel :=
    if backend0 = some "akida" then
      match step2.1 with
      | some p =>
        -- load_akida_model re-checks the import and the path (both hold on
        -- this branch) before calling AkidaModel(p); any exception is
        -- caught in main and demotes the backend to "cpu" with no model.
        if attempt_import_akida env.akidaImport then
          if env.fs.pathExists p then
            match env.loadAkida p with
            | .ok _ => (some "akida", some .akida)
            | .error _ => (some "cpu", none)
          else (some "cpu", none)
        else (some "cpu", none)
      | none => (some "cpu", none)
    else (backend0, none)
  let afterCpu : Option String × Option LoadedModel :=
    if afterAkida.1 = some "onnx" ∨ afterAkida.1 = some "tflite" then
      match step2.1 with
      | some p =>
        match (load_cpu_model env.py p afterAkida.1).1 with
        | .ok m => (afterAkida.1, some (.cpu m))
        | .error _ => (some "dummy", none)
      | none => (some "dummy", none)
    else afterAkida
  ⟨step2.1, afterCpu.1, afterCpu.2⟩

/-- The placeholder output of the demo's dummy branch (line 231):
`np.random.rand(10)` — deterministic shape `(10,)`, nondeterministic
values drawn from the environment's random stream. -/
def dummyOutput (env : DemoEnv) : Tensor :=
  ⟨[10], (List.range 10).map env.rand⟩

/-- audio_demo.main, inference dispatch (lines 224-231): akida and cpu
backends use their loaded model; every other backend value (including
`"dummy"`, `"cpu"` and `None`) falls into the dummy branch. -/
def demoPredict (env : DemoEnv) (r : Resolution) (input : Tensor) :
    Except PyErr Tensor :=
  if r.backend = some "akida" then
    match r.model with
    | some .akida => .ok (env.akidaPredict input)
    | _ => .error .attributeError
  else if r.backend = some "onnx" ∨ r.backend = some "tflite" then
    match r.model with
    | some (.cpu m) => (m.predict input).1
    | _ => .error .attributeError
  else .ok (dummyOutput env)

/-! ## Concrete environments used by witnesses and counterexamples -/

/-- An environment whose model loaders always fail, used by witnesses. -/
def pyEnvFailingLoads : PyEnv :=
  ⟨.ok, .ok, .importError, false,
   fun _ => .error "load failed", fun _ => .error "load failed",
   fun _ => .error "load failed"⟩

/-- A filesystem with no directories and no files. -/
def demoFsNone : DemoFS := ⟨fun _ => false, fun _ => []⟩

/-- An environment with nothing available, used by the C5 witness. -/
def demoEnvNone : DemoEnv :=
  ⟨false, .importError, demoFsNone, fun _ => .error "no akida",
   fun t => t,
   ⟨.importError, .importError, .importError, false,
    fun _ => .error "no", fun _ => .error "no", fun _ => .error "no"⟩,
   fun _ => 0⟩

/-- A filesystem whose first search directory holds only a `.tflite` model
while a later directory holds an `.onnx` model. -/
def fsCex : DemoFS where
  pathExists := fun p => decide (p = "./build" ∨ p = "./runtime/models")
  listdir := fun d =>
    if d = "./build" then ["m.tflite"]
    else if d = "./runtime/models" then ["m.onnx"] else []

/-- A runtime object used only to instantiate witnesses. -/
def witnessRt : RtObj :=
  ⟨"input", fun _ => [], fun t => t⟩

/-! ## Helper lemmas -/

theorem hasPrefixL_iff (p : List Char) : ∀ s : List Char,
    (hasPrefixL s p = true ↔ ∃ t, s = p ++ t) := by
  induction p with
  | nil => intro s; simp [hasPrefixL]
  | cons c ps ih =>
    intro s
    cases s with
    | nil => simp [hasPrefixL]
    | cons a as =>
      simp only [hasPrefixL, Bool.and_eq_true, decide_eq_true_eq, ih, List.cons_append]
      constructor
      · rintro ⟨h1, t, h2⟩
        exact ⟨t, by rw [h1, h2]⟩
      · rintro ⟨t, h⟩
        injection h with h1 h2
        exact ⟨h1, t, h2⟩

theorem containsL_iff (p : List Char) : ∀ s : List Char,
    (containsL s p = true ↔ SubstrSpec p s) := by
  intro s
  induction s with
  | nil =>
    simp only [containsL, hasPrefixL_iff, SubstrSpec, Bool.or_eq_true]
    constructor
    · rintro (⟨t, h⟩ | h)
      · exact ⟨[], t, by simpa using h⟩
      · cases h
    · rintro ⟨pre, suf, h⟩
      rcases List.append_eq_nil.mp h.symm with ⟨h1, h2⟩
      rcases List.append_eq_nil.mp h1 with ⟨h3, h4⟩
      exact Or.inl ⟨[], by simp [h4]⟩
  | cons a as ih =>
    simp only [containsL, hasPrefixL_iff, Bool.or_eq_true]
    constructor
    · rintro (⟨t, h⟩ | h)
      · exact ⟨[], t, by simpa using h⟩
      · rcases ih.mp h with ⟨pre, suf, h2⟩
        exact ⟨a :: pre, suf, by simp [h2]⟩
    · rintro ⟨pre, suf, h⟩
      cases pre with
      | nil => exact Or.inl ⟨suf, by simpa using h⟩
      | cons d pre =>
        rw [List.cons_append, List.cons_append] at h
        injection h with h1 h2
        exact Or.inr (ih.mpr ⟨pre, suf, h2⟩)

theorem maxAbs_nonneg (xs : List ℚ) : 0 ≤ maxAbs xs := by
  induction xs with
  | nil => simp [maxAbs]
  | cons x xs ih =>
    have : maxAbs (x :: xs) = max |x| (maxAbs xs) := rfl
    rw [this]
    exact le_trans ih (le_max_right _ _)

theorem le_maxAbs {x : ℚ} {xs : List ℚ} (h : x ∈ xs) : |x| ≤ maxAbs xs := by
  induction xs with
  | nil => cases h
  | cons y ys ih =>
    have hm : maxAbs (y :: ys) = max |y| (maxAbs ys) := rfl
    rw [hm]
    rcases List.mem_cons.mp h with h1 | h2
    · rw [h1]; exact le_max_left _ _
    · exact le_trans (ih h2) (le_max_right _ _)

/-! ## Claim theorems -/

/-- C2: the claim says `preprocess_image` returns shape `(1, height, width, 3)`
(color) and `(1, 1, height, width)` (grayscale) for every target
`(height, width)`.  The code passes `target_shape = (height, width)`
verbatim to `PIL.Image.resize`, whose size argument is `(width, height)`,
so a 512×512 source resized to target `(224, 100)` actually yields shape
`(1, 100, 224, 3)` (and `(1, 1, 100, 224)` in grayscale), contradicting the
claim and the function's own docstring; the two agree only for square
targets. -/
theorem c2_image_shape_swapped :
    preprocess_image_shape ⟨512, 512, 3⟩ (224, 100) false = [1, 100, 224, 3] ∧
    preprocess_image_shape ⟨512, 512, 3⟩ (224, 100) false ≠ [1, 224, 100, 3] ∧
    preprocess_image_shape ⟨512, 512, 3⟩ (224, 100) true = [1, 1, 100, 224] := by
  decide

/-- C4 counterexample: the claim says every availability probe returns
false rather than propagating for *any* import failure, but
`check_onnx_available` catches only `ImportError`: a non-ImportError
exception raised during `import onnxruntime` propagates to the caller. -/
theorem c4_probe_counterexample :
    check_onnx_available .otherError = .error .uncaughtImportCrash ∧
    check_onnx_available .otherError ≠ .ok false :=
  ⟨rfl, fun h => nomatch h⟩

/-- C4 amended: the Akida probe (`attempt_import_akida`) swallows every
exception, but `check_onnx_available` and `check_tflite_available` swallow
only `ImportError`; any other exception raised during library import
propagates to the caller.  Full behaviour table. -/
theorem c4_probe_behaviour :
    (check_onnx_available .ok = .ok true ∧
     check_onnx_available .importError = .ok false ∧
     check_onnx_available .otherError = .error .uncaughtImportCrash) ∧
    ((∀ tf hl, check_tflite_available .ok tf hl = .ok true) ∧
     (∀ hl, check_tflite_available .importError .ok hl = .ok hl) ∧
     (∀ hl, check_tflite_available .importError .importError hl = .ok false) ∧
     (∀ hl, check_tflite_available .importError .otherError hl = .error .uncaughtImportCrash) ∧
     (∀ tf hl, check_tflite_available .otherError tf hl = .error .uncaughtImportCrash)) ∧
    (attempt_import_akida .ok = true ∧
     attempt_import_akida .importError = false ∧
     attempt_import_akida .otherError = false) :=
  ⟨⟨rfl, rfl, rfl⟩,
   ⟨fun _ _ => rfl, fun _ => rfl, fun _ => rfl, fun _ => rfl, fun _ _ => rfl⟩,
   ⟨rfl, rfl, rfl⟩⟩

/-- Witness for `c4_probe_behaviour` at concrete inputs. -/
theorem c4_probe_behaviour_witness :
    check_tflite_available .importError .ok true = .ok true ∧
    check_tflite_available .otherError .ok true = .error .uncaughtImportCrash :=
  ⟨c4_probe_behaviour.2.1.2.1 true, c4_probe_behaviour.2.1.2.2.2.2 .ok true⟩

/-- C9: `is_linux_arm` is a pure total Boolean function of the OS name and
machine string, true iff the OS is exactly "Linux" and the lowercased
machine string contains "arm" or "aarch64" as a contiguous substring
(case-insensitive matching: the machine string is lowercased and the
markers are lowercase). -/
theorem c9_is_linux_arm_iff (system machine : String) :
    is_linux_arm system machine = true ↔
      (system = "Linux" ∧
        (SubstrSpec "arm".data (strLower machine).data ∨
         SubstrSpec "aarch64".data (strLower machine).data)) := by
  simp only [is_linux_arm, strContains, Bool.and_eq_true, Bool.or_eq_true,
    decide_eq_true_eq, containsL_iff]

/-- Witness for `c9_is_linux_arm_iff`: a Linux/aarch64 host is recognised. -/
theorem c9_is_linux_arm_iff_witness :
    is_linux_arm "Linux" "aarch64" = true ∧ is_linux_arm "Darwin" "arm64" = false :=
  ⟨(c9_is_linux_arm_iff "Linux" "aarch64").mpr (by
      refine ⟨rfl, Or.inr ?_⟩
      exact ⟨[], [], by decide⟩),
   by decide⟩

/-- C10: `CpuModel.predict` with any backend string other than "onnx" and
"tflite" — in particular "akida" and "dummy" — raises the
unsupported-backend `ValueError` for every input tensor and never invokes
the wrapped runtime object (the recorded runtime-call list is empty). -/
theorem c10_unsupported_backend (m : CpuModel) (x : Tensor)
    (h1 : m.backend ≠ "onnx") (h2 : m.backend ≠ "tflite") :
    m.predict x = (.error (.unsupportedBackend m.backend), []) := by
  unfold CpuModel.predict
  rw [if_neg h1, if_neg h2]

/-- C7: with `normalize=true`, every sample of the normalized audio output
has absolute value at most 1; a signal whose maximum absolute value is 0 is
passed through completely unscaled (the division is guarded, so it never
divides by zero); and every normalized image value `p / 255` computed from
a decoded 8-bit pixel `p ≤ 255` lies in `[0, 1]`. -/
theorem c7_normalization_bounds :
    (∀ xs : List ℚ, ∀ y ∈ normalizeAudio xs, |y| ≤ 1) ∧
    (∀ xs : List ℚ, maxAbs xs = 0 → normalizeAudio xs = xs) ∧
    (∀ ps : List ℕ, (∀ p ∈ ps, p ≤ 255) →
      ∀ y ∈ normalizeImagePixels ps, 0 ≤ y ∧ y ≤ 1) := by
  refine ⟨?_, ?_, ?_⟩
  · intro xs y hy
    unfold normalizeAudio at hy
    by_cases hm : 0 < maxAbs xs
    · rw [if_pos hm] at hy
      rcases List.mem_map.mp hy with ⟨x, hx, rfl⟩
      rw [abs_div, abs_of_pos hm]
      exact (div_le_one hm).mpr (le_maxAbs hx)
    · rw [if_neg hm] at hy
      have h0 : maxAbs xs = 0 :=
        le_antisymm (not_lt.mp hm) (maxAbs_nonneg xs)
      have := le_maxAbs hy
      rw [h0] at this
      exact le_trans this one_pos.le
  · intro xs h0
    unfold normalizeAudio
    rw [if_neg (by rw [h0]; exact lt_irrefl 0)]
  · intro ps hps y hy
    unfold normalizeImagePixels at hy
    rcases List.mem_map.mp hy with ⟨q, hq, hqy⟩
    rw [← hqy]
    constructor
    · exact div_nonneg (Nat.cast_nonneg q) (by norm_num)
    · rw [div_le_one (by norm_num)]
      exact_mod_cast hps q hq

/-- Witness for `c7_normalization_bounds` at concrete inputs. -/
theorem c7_normalization_bounds_witness :
    (∀ y ∈ normalizeAudio [3, -4], |y| ≤ 1) ∧
    normalizeAudio [0, 0] = [0, 0] ∧
    (∀ y ∈ normalizeImagePixels [200, 0], 0 ≤ y ∧ y ≤ 1) :=
  ⟨c7_normalization_bounds.1 [3, -4],
   c7_normalization_bounds.2.1 [0, 0] (by norm_num [maxAbs]),
   c7_normalization_bounds.2.2 [200, 0] (by decide)⟩

/-- C3 counterexample: the claim says the adjusted sample count equals
`round(duration * sample_rate)`, but the code computes
`int(duration * sample_rate)` (truncation): at `duration = 3/4` and
`sample_rate = 2` the product is `1.5`, the code keeps 1 sample while the
claimed contract demands `round(1.5) = 2`. -/
theorem c3_round_counterexample :
    (adjustDuration [1, 1, 1] (some (3/4 : ℚ)) 2).length = 1 ∧
    specTargetSamples (3/4 : ℚ) 2 = 2 := by
  constructor
  · norm_num [adjustDuration, pyInt, pySliceTo]
  · norm_num [specTargetSamples, round_eq]

/-- C3 amended: for every `duration > 0` the second dimension of the
adjusted signal equals exactly `int(duration * sample_rate)` (truncation
toward zero, not rounding), obtained by truncating excess samples from the
end or zero-padding at the end. -/
theorem c3_trunc_length (xs : List ℚ) (d : ℚ) (sr : ℕ) (hd : 0 < d) :
    (adjustDuration xs (some d) sr).length = (pyInt (d * (sr : ℚ))).toNat ∧
    adjustDuration xs (some d) sr =
      (if (pyInt (d * (sr : ℚ))).toNat ≤ xs.length
       then xs.take (pyInt (d * (sr : ℚ))).toNat
       else xs ++ List.replicate ((pyInt (d * (sr : ℚ))).toNat - xs.length) 0) := by
  have hms : 0 ≤ d * (sr : ℚ) := mul_nonneg hd.le (Nat.cast_nonneg sr)
  have ht0 : 0 ≤ pyInt (d * (sr : ℚ)) := by
    unfold pyInt
    rw [if_pos hms]
    exact Int.floor_nonneg.mpr hms
  have hk : ((pyInt (d * (sr : ℚ))).toNat : ℤ) = pyInt (d * (sr : ℚ)) :=
    Int.toNat_of_nonneg ht0
  have heq : adjustDuration xs (some d) sr =
      (if (pyInt (d * (sr : ℚ))).toNat ≤ xs.length
       then xs.take (pyInt (d * (sr : ℚ))).toNat
       else xs ++ List.replicate ((pyInt (d * (sr : ℚ))).toNat - xs.length) 0) := by
    simp only [adjustDuration]
    rcases lt_trichotomy ((xs.length : ℤ)) (pyInt (d * (sr : ℚ))) with hlt | heq0 | hgt
    · rw [if_neg (by omega), if_pos hlt, if_neg (by omega)]
    · rw [if_neg (by omega), if_neg (by omega), if_pos (by omega)]
      have hlen : (pyInt (d * (sr : ℚ))).toNat = xs.length := by omega
      rw [hlen, List.take_length]
    · rw [if_pos hgt, if_pos (by omega)]
      unfold pySliceTo
      rw [if_pos ht0]
  refine ⟨?_, heq⟩
  rw [heq]
  split_ifs with h
  · rw [List.length_take]
    omega
  · rw [List.length_append, List.length_replicate]
    omega

/-- Witness for `c3_trunc_length`: duration `1/2` at 4 Hz keeps 2 samples. -/
theorem c3_trunc_length_witness :
    (adjustDuration [1, 2, 3] (some (1/2 : ℚ)) 4).length
      = (pyInt ((1/2 : ℚ) * ((4 : ℕ) : ℚ))).toNat :=
  (c3_trunc_length [1, 2, 3] (1/2) 4 (by norm_num)).1

/-- C8 counterexample: the claim says any non-positive `duration` makes
`preprocess_audio` fail with an `InvalidShapeOrDuration` error, but the
code performs no duration validation: `duration = -1` at 8 Hz on a
20-sample signal simply slices `audio[:-8]` and successfully returns a
12-sample tensor. -/
theorem c8_nonpositive_counterexample :
    preprocessAudioCore (List.replicate 20 (1 : ℚ)) (some (-1 : ℚ)) 8 false
      = .ok (List.replicate 12 1) := by
  have h8 : ⌈(-8 : ℚ)⌉ = -8 := by
    rw [show (-8 : ℚ) = ((-8 : ℤ) : ℚ) by norm_num]
    exact Int.ceil_intCast _
  norm_num [preprocessAudioCore, adjustDuration, pyInt, pySliceTo, h8,
    List.take_replicate]
  decide

/-- C8 amended: non-positive durations are not rejected (no
`InvalidShapeOrDuration` error exists in the code).  With
`normalize=false`, `duration ≤ 0` succeeds and returns the Python slice
`audio[:int(duration*sample_rate)]`: the empty signal when
`int(duration*sample_rate) = 0`, otherwise the signal with the last
`|int(duration*sample_rate)|` samples dropped.  (With `normalize=true` an
empty adjusted signal instead makes `np.max` raise a ValueError.) -/
theorem c8_nonpositive_behaviour (xs : List ℚ) (d : ℚ) (sr : ℕ) (hd : d ≤ 0) :
    preprocessAudioCore xs (some d) sr false =
      .ok (if pyInt (d * (sr : ℚ)) = 0 then ([] : List ℚ)
           else xs.take ((xs.length : ℤ) + pyInt (d * (sr : ℚ))).toNat) := by
  have hms : d * (sr : ℚ) ≤ 0 :=
    mul_nonpos_of_nonpos_of_nonneg hd (Nat.cast_nonneg sr)
  have ht0 : pyInt (d * (sr : ℚ)) ≤ 0 := by
    unfold pyInt
    split_ifs with h
    · exact Int.floor_nonpos hms
    · exact Int.ceil_le.mpr (by exact_mod_cast hms)
  simp only [preprocessAudioCore, adjustDuration]
  rw [if_neg (by simp : ¬(false = true))]
  rcases lt_or_eq_of_le ht0 with htneg | htzero
  · rw [if_neg htneg.ne]
    rw [if_pos (lt_of_lt_of_le htneg (Int.natCast_nonneg xs.length))]
    unfold pySliceTo
    rw [if_neg (not_le.mpr htneg)]
    congr 2
    omega
  · rw [if_pos htzero, htzero]
    split_ifs with h1 h2
    · unfold pySliceTo
      rw [if_pos le_rfl]
      simp
    · omega
    · have hlen : xs.length = 0 := by omega
      rw [List.length_eq_zero.mp hlen]

/-- Witness for `c8_nonpositive_behaviour`: duration 0 truncates to the
empty signal. -/
theorem c8_nonpositive_behaviour_witness :
    preprocessAudioCore [5, 6] (some (0 : ℚ)) 16000 false
      = .ok (if pyInt ((0 : ℚ) * ((16000 : ℕ) : ℚ)) = 0 then ([] : List ℚ)
             else ([5, 6] : List ℚ).take ((([5, 6] : List ℚ).length : ℤ)
               + pyInt ((0 : ℚ) * ((16000 : ℕ) : ℚ))).toNat) :=
  c8_nonpositive_behaviour [5, 6] 0 16000 le_rfl

/-- C1: with an explicit `preferred_backend` override, that backend is the
sole candidate: when its library is importable but the model-load attempt
throws, `load_cpu_model` raises the corresponding "Failed to load … model"
`RuntimeError` (the ModelLoadFailure error kind) to the caller, attempts no
other loader (the attempt log holds exactly the overridden backend), and
never falls back to the other CPU runtime or a dummy handle. -/
theorem c1_override_sole_candidate (env : PyEnv) (path : String) :
    (env.onnxImport = .ok → ∀ msg, env.loadOnnx path = .error msg →
      load_cpu_model env path (some "onnx")
        = (.error (.modelLoadFailure "onnx"), [.onnx path])) ∧
    (env.tfliteRtImport = .ok → ∀ msg, env.loadTfliteRt path = .error msg →
      load_cpu_model env path (some "tflite")
        = (.error (.modelLoadFailure "tflite"), [.tfliteRt path])) := by
  constructor
  · intro h1 msg h2
    simp [load_cpu_model, check_onnx_available, h1, h2]
  · intro h1 msg h2
    simp [load_cpu_model, check_tflite_available, h1, h2]

/-- Witness for `c1_override_sole_candidate` with a concrete failing
environment. -/
theorem c1_override_sole_candidate_witness :
    load_cpu_model pyEnvFailingLoads "model.onnx" (some "onnx")
      = (.error (.modelLoadFailure "onnx"), [.onnx "model.onnx"]) ∧
    load_cpu_model pyEnvFailingLoads "model.tflite" (some "tflite")
      = (.error (.modelLoadFailure "tflite"), [.tfliteRt "model.tflite"]) :=
  ⟨(c1_override_sole_candidate pyEnvFailingLoads "model.onnx").1
      rfl "load failed" rfl,
   (c1_override_sole_candidate pyEnvFailingLoads "model.tflite").2
      rfl "load failed" rfl⟩

/-- C5: without an explicit override (the demo has no backend flag and a
user-supplied `--model` path is never extension-sniffed), when the akida
tier cannot pin a choice (non-ARM platform or failing akida import) and no
CPU model file is discoverable, the demo resolution always terminates in
the dummy terminal state (backend `"dummy"`, or `None` when an unusable
explicit path was given) with no loaded model, never raises, and its
inference dispatch returns the fixed-shape `np.random.rand(10)` placeholder
tensor of shape `(10,)` rather than an exception. -/
theorem c5_resolution_never_raises (env : DemoEnv) (am : Option String)
    (hAk : env.isLinuxArm = false ∨ env.akidaImport ≠ .ok)
    (hFind : find_cpu_model env.fs = none) :
    ((resolveDemo env am).backend = some "dummy" ∨ (resolveDemo env am).backend = none) ∧
    (resolveDemo env am).model = none ∧
    (∀ input, demoPredict env (resolveDemo env am) input = .ok (dummyOutput env)) ∧
    (dummyOutput env).shape = [10] := by
  have hA : (env.isLinuxArm && attempt_import_akida env.akidaImport) = false := by
    rcases hAk with h | h
    · simp [h]
    · cases hi : env.akidaImport with
      | ok => exact absurd hi h
      | importError => simp [attempt_import_akida]
      | otherError => simp [attempt_import_akida]
  cases am with
  | some p =>
    have h1 : resolveDemo env (some p) = ⟨some p, none, none⟩ := by
      simp [resolveDemo, hA]
    rw [h1]
    exact ⟨Or.inr rfl, rfl, fun input => by simp [demoPredict], rfl⟩
  | none =>
    have h1 : resolveDemo env none = ⟨none, some "dummy", none⟩ := by
      simp [resolveDemo, hA, hFind]
    rw [h1]
    exact ⟨Or.inl rfl, rfl, fun input => by simp [demoPredict], rfl⟩

/-- Witness for `c5_resolution_never_raises` on the all-unavailable
environment. -/
theorem c5_resolution_never_raises_witness :
    ((resolveDemo demoEnvNone none).backend = some "dummy" ∨
      (resolveDemo demoEnvNone none).backend = none) ∧
    (resolveDemo demoEnvNone none).model = none ∧
    demoPredict demoEnvNone (resolveDemo demoEnvNone none) ⟨[1], [0]⟩
      = .ok (dummyOutput demoEnvNone) ∧
    (dummyOutput demoEnvNone).shape = [10] :=
  have h := c5_resolution_never_raises demoEnvNone none (Or.inl rfl) rfl
  ⟨h.1, h.2.1, h.2.2.1 ⟨[1], [0]⟩, h.2.2.2⟩

/-- C6 counterexample: the claim says the onnx-before-tflite backend
preference ranks above directory order and that the selected kind is the
first *available* one, but `find_cpu_model` iterates directories outermost
and never consults an availability probe: with a `.tflite` file in
`./build` and an `.onnx` file in `./runtime/models`, and both runtimes
available, the code selects the tflite model while the spec's rule selects
onnx. -/
theorem c6_dir_order_counterexample :
    find_cpu_model fsCex = some "./build/m.tflite" ∧
    (find_cpu_model fsCex).bind backendFromFound = some "tflite" ∧
    specSelectCpu true true fsCex = some "onnx" := by
  decide

/-- C6 amended: CPU-model discovery scans the fixed directory list in
order; the first existing directory containing a model wins regardless of
later directories (directory order ranks above backend preference), the
`.onnx`-before-`.tflite` preference applies only within a single
directory, and library availability is not consulted during selection
(`find_cpu_model` takes no availability input at all). -/
theorem c6_dir_order (fs : DemoFS) (hb : fs.pathExists "./build" = true) :
    (∀ f, (fs.listdir "./build").find? (fun x => strEndsWith x ".onnx") = some f →
      find_cpu_model fs = some ("./build/" ++ f)) ∧
    (∀ f, (fs.listdir "./build").find? (fun x => strEndsWith x ".onnx") = none →
          (fs.listdir "./build").find? (fun x => strEndsWith x ".tflite") = some f →
      find_cpu_model fs = some ("./build/" ++ f)) := by
  constructor
  · intro f hf
    simp [find_cpu_model, searchPaths, List.filter_cons, hb,
      List.findSome?_cons, findInDir, hf]
  · intro f h1 h2
    simp [find_cpu_model, searchPaths, List.filter_cons, hb,
      List.findSome?_cons, findInDir, h1, h2]

/-- Witness for `c6_dir_order`: on `fsCex` the tflite file in the first
directory is selected. -/
theorem c6_dir_order_witness :
    find_cpu_model fsCex = some ("./build/" ++ "m.tflite") :=
  (c6_dir_order fsCex (by decide)).2 "m.tflite" (by decide) (by decide)

/-- Witness for `c10_unsupported_backend` at backend "akida". -/
theorem c10_unsupported_backend_witness :
    CpuModel.predict ⟨"akida", witnessRt⟩ ⟨[1], [0]⟩
      = (.error (.unsupportedBackend "akida"), []) :=
  c10_unsupported_backend ⟨"akida", witnessRt⟩ ⟨[1], [0]⟩ (by decide) (by decide)

end Echo
